import Mathlib

/-!
Verification development for the azureml-primers tutorial notebooks.

The notebooks are glue code around an external managed ML service.  The
definitions below are shallow embeddings of the cells and of the Python
scripts the cells write out with writefile magic:

* exception-handling cells become explicit case analyses on a result type
  that models Python exceptions;
* configuration objects handed to the external service become plain Lean
  records holding the literal configuration values;
* the embedded scripts (batch scoring, training, data generation) become
  Lean functions over lists, with external library calls (the fitted model,
  file parsing, stringification) abstracted as function parameters.
-/

namespace AzureMLPrimers

/-! ## Python exception plumbing

A Python expression either returns a value or raises an exception.  The only
exception type the notebooks ever name is ComputeTargetException; every other
raised exception is modelled by an abstract message. -/

/-- Result of evaluating a fallible Python expression: a value or a raised
exception of type epsilon. -/
inductive PyResult (ε α : Type) where
  | ok (a : α)
  | exc (e : ε)
deriving DecidableEq, Repr

/-- Exceptions that can reach the except clauses of the notebooks: the
ComputeTargetException named in four cells, or any other platform failure. -/
inductive AzureExc where
  | computeTargetException
  | otherExc (msg : String)
deriving DecidableEq, Repr

/-- The except-clause filter of the four cluster cells: only
ComputeTargetException is caught, everything else propagates. -/
def catchesComputeTarget : AzureExc → Bool
  | .computeTargetException => true
  | .otherExc _ => false

/-! ## Inventory of exception handlers

The repository contains exactly five try/except blocks.  Each entry below
records one of them: the notebook it lives in, the cell, the exception
expression named in its except clause, and what the handler does. -/

/-- Exception expression appearing in an except clause. -/
inductive ExcClause where
  | computeTargetException
  | anyException
deriving DecidableEq, Repr

/-- What a handler body does. -/
inductive HandlerPurpose where
  | clusterReuseCreate
  | workspaceReuseCreate
deriving DecidableEq, Repr

/-- One try/except block of the repository. -/
structure Handler where
  notebook : String
  cell : String
  caught : ExcClause
  purpose : HandlerPurpose
deriving DecidableEq, Repr

/-- All five try/except blocks in the repository, in file order.  Four are
the textually identical cpu-cluster lookup/create cells catching
ComputeTargetException; the fifth is the workspace bootstrap cell of
notebook 01, whose except clause names the generic Exception type. -/
def exceptionHandlers : List Handler :=
  [ ⟨"01 - Setting up Your Environment", "workspace bootstrap (Exercise 1, Task 3)",
      .anyException, .workspaceReuseCreate⟩,
    ⟨"01 - Setting up Your Environment", "cpu-cluster cell (Exercise 8, Task 3)",
      .computeTargetException, .clusterReuseCreate⟩,
    ⟨"04 - Compute Contexts", "cpu-cluster cell (Exercise 4, Task 2)",
      .computeTargetException, .clusterReuseCreate⟩,
    ⟨"04 - Compute Contexts", "cpu-cluster cell (Exercise 7, Task 2)",
      .computeTargetException, .clusterReuseCreate⟩,
    ⟨"05 - Optimizing Model Training", "cpu-cluster cell (Task 1)",
      .computeTargetException, .clusterReuseCreate⟩ ]

/-! ## The cpu-cluster lookup/create cell

The same cell appears verbatim in notebooks 01 (Exercise 8), 04 (Exercise 4
and Exercise 7) and 05:

  cpu_cluster_name = "cpu-cluster"
  try:
      cpu_cluster = ComputeTarget(workspace=ws, name=cpu_cluster_name)
  except ComputeTargetException:
      compute_config = AmlCompute.provisioning_configuration(
          vm_size = STANDARD_D2_V2, vm_priority = lowpriority, max_nodes = 4)
      cpu_cluster = ComputeTarget.create(ws, cpu_cluster_name, compute_config)
-/

/-- The name the four cells look up. -/
def cpu_cluster_name : String := "cpu-cluster"

/-- Provisioning configuration handed to AmlCompute.provisioning_configuration. -/
structure ProvisioningConfig where
  vm_size : String
  vm_priority : String
  max_nodes : Nat
deriving DecidableEq, Repr

/-- The literal provisioning configuration of the four cluster cells. -/
def clusterProvisioningConfig : ProvisioningConfig :=
  ⟨"STANDARD_D2_V2", "lowpriority", 4⟩

/-- Embedding of the cluster cell.  The lookup argument is the outcome of the
ComputeTarget constructor call; the create argument is the external
ComputeTarget.create call.  Returns the resulting binding of cpu_cluster
(or the propagated exception) together with the provisioning request issued,
none meaning that no provisioning call was made. -/
def cpuClusterCell {α : Type} (lookup : PyResult AzureExc α)
    (create : ProvisioningConfig → α) :
    PyResult AzureExc α × Option ProvisioningConfig :=
  match lookup with
  | .ok c => (.ok c, none)
  | .exc e =>
      if catchesComputeTarget e then
        (.ok (create clusterProvisioningConfig), some clusterProvisioningConfig)
      else
        (.exc e, none)

/-! ## The workspace bootstrap cell (notebook 01, Exercise 1, Task 3)

  ws = None
  try:
      ws = Workspace(workspace_name=..., subscription_id=..., resource_group=...)
  except Exception as ex:
      ws = Workspace.create(name=..., subscription_id=..., resource_group=...,
                            create_resource_group=True, location=...)
  finally:
      if ws != None:
          ws.write_config()

The except clause catches every Exception, so a lookup failure always leads
to a creation attempt; if the creation attempt itself raises, ws is still
None when the finally clause runs, so write_config is skipped and the
exception propagates. -/

/-- Arguments of the Workspace.create call in the bootstrap cell. -/
structure WorkspaceCreateCall where
  name : String
  subscription_id : String
  resource_group : String
  create_resource_group : Bool
  location : String
deriving DecidableEq, Repr

/-- The literal Workspace.create call issued by the bootstrap cell, with the
placeholder constants of the notebook. -/
def bootstrapCreateCall : WorkspaceCreateCall :=
  ⟨"aml-workspace", "<YOUR_AZURE_SUBSCRIPTION_ID>", "aml-resource-group",
    true, "eastus2"⟩

/-- Observable outcome of the bootstrap cell. -/
structure BootstrapOutcome (ω : Type) where
  ws : Option ω
  createRequested : Option WorkspaceCreateCall
  configWritten : Bool
  raised : Option String
deriving DecidableEq, Repr

/-- Embedding of the bootstrap cell.  The lookup argument is the Workspace
constructor call; the create argument is the external Workspace.create call,
receiving the literal argument record of the cell.  The configWritten field
records whether the finally clause executed write_config, which the code
guards by ws != None. -/
def workspaceBootstrap {ω : Type} (lookup : PyResult String ω)
    (create : WorkspaceCreateCall → PyResult String ω) : BootstrapOutcome ω :=
  match lookup with
  | .ok w => { ws := some w, createRequested := none,
               configWritten := (some w : Option ω).isSome, raised := none }
  | .exc _ =>
      match create bootstrapCreateCall with
      | .ok w => { ws := some w, createRequested := some bootstrapCreateCall,
                   configWritten := (some w : Option ω).isSome, raised := none }
      | .exc e => { ws := none, createRequested := some bootstrapCreateCall,
                    configWritten := (none : Option ω).isSome, raised := some e }

/-! ## The batch scoring script (notebook 01, batch_diabetes.py)

  file_names = glob(os.path.join(input_dir, "*.csv"))
  input_data = np.asarray([np.genfromtxt(f, delimiter=",") for f in file_names])
  predictions = model.predict(input_data)
  with open("outputs/results.txt", "w") as output_file:
      for i in range(len(predictions)):
          output_file.write(os.path.split(file_names[i])[1] + ": "
                            + str(predictions[i]) + "\n")

The fitted model is external; scikit-learn predict returns one prediction
per input row, so it is abstracted as a per-row function mapped over the
parsed rows.  File parsing (np.genfromtxt) and prediction stringification
(str) are likewise abstracted as parameters. -/

/-- Embedding of os.path.split(path)[1]: the component after the last slash. -/
def baseName (path : String) : String :=
  (path.splitOn "/").getLastD path

/-- Lines written to outputs/results.txt by the loop of batch_diabetes.py
(each written record is terminated by one newline in the script, so the
list element i is exactly line i of the file). -/
def batchScoreResults {ρ π : Type} (predict : ρ → π) (render : π → String)
    (readFile : String → ρ) (file_names : List String) : List String :=
  let input_data := file_names.map readFile
  let predictions := input_data.map predict
  (List.range predictions.length).map fun i =>
    baseName (file_names.getD i "") ++ ": " ++ ((predictions.map render).getD i "")

/-! ## The hyperdrive configuration (notebook 05, Task 2)

  params = GridParameterSampling({"--regularization":
              choice(0.001, 0.005, 0.01, 0.05, 0.1, 1.0)})
  policy = BanditPolicy(evaluation_interval=2, slack_factor=0.1)
  hyperdrive = HyperDriveConfig(estimator=..., hyperparameter_sampling=params,
              policy=policy, primary_metric_name="AUC",
              primary_metric_goal=PrimaryMetricGoal.MAXIMIZE,
              max_total_runs=6, max_concurrent_runs=4)

Pure configuration data: the sampling and early-termination logic lives in
the external service.  The decimal literals are represented exactly as
rationals. -/

/-- Grid sampling configuration: named parameters with their value choices. -/
structure GridParameterSampling where
  parameters : List (String × List ℚ)
deriving DecidableEq, Repr

/-- Bandit early-termination policy configuration: the two numeric
thresholds handed to the service. -/
structure BanditPolicy where
  evaluation_interval : ℕ
  slack_factor : ℚ
deriving DecidableEq, Repr

/-- Optimization direction of the primary metric. -/
inductive PrimaryMetricGoal where
  | MAXIMIZE
  | MINIMIZE
deriving DecidableEq, Repr

/-- Hyperdrive sweep configuration record handed to the service. -/
structure HyperDriveConfig where
  hyperparameter_sampling : GridParameterSampling
  policy : BanditPolicy
  primary_metric_name : String
  primary_metric_goal : PrimaryMetricGoal
  max_total_runs : ℕ
  max_concurrent_runs : ℕ
deriving DecidableEq, Repr

/-- The six regularization choices of the grid, as exact rationals. -/
def regularizationChoices : List ℚ :=
  [1/1000, 5/1000, 1/100, 5/100, 1/10, 1]

/-- The GridParameterSampling object built in notebook 05. -/
def hyperdriveParams : GridParameterSampling :=
  ⟨[("--regularization", regularizationChoices)]⟩

/-- The BanditPolicy object built in notebook 05. -/
def hyperdrivePolicy : BanditPolicy :=
  ⟨2, 1/10⟩

/-- The HyperDriveConfig object built in notebook 05. -/
def hyperdriveCfg : HyperDriveConfig :=
  ⟨hyperdriveParams, hyperdrivePolicy, "AUC", .MAXIMIZE, 6, 4⟩

/-- Number of points of a parameter grid: the product over parameters of the
number of value choices (grid sampling tries every combination). -/
def gridPointCount (g : GridParameterSampling) : ℕ :=
  (g.parameters.map (fun p => p.2.length)).prod

/-! ## Triggering the published pipeline over REST (notebook 01, Task 5)

  interactive_auth = InteractiveLoginAuthentication()
  auth_header = interactive_auth.get_authentication_header()
  rest_endpoint = published_pipeline.endpoint
  response = requests.post(rest_endpoint, headers=auth_header,
                           json={"ExperimentName": "Batch_Pipeline_via_REST"})
  run_id = response.json()["Id"]
-/

/-- An HTTP POST request as assembled by the notebook: target URL, header
map, JSON object body (modelled as string key/value pairs). -/
structure HttpPostRequest where
  url : String
  headers : List (String × String)
  jsonBody : List (String × String)
deriving DecidableEq, Repr

/-- The interactive authentication session; its header is whatever
get_authentication_header returns, a black box to the notebook. -/
structure InteractiveLoginAuthentication where
  authentication_header : List (String × String)
deriving DecidableEq, Repr

/-- The POST request the notebook issues to trigger the published pipeline:
the URL is the published pipeline endpoint, the headers are the interactive
session authorization header, the body names the experiment. -/
def triggerPublishedPipeline (endpoint : String)
    (interactive_auth : InteractiveLoginAuthentication) : HttpPostRequest :=
  { url := endpoint,
    headers := interactive_auth.authentication_header,
    jsonBody := [("ExperimentName", "Batch_Pipeline_via_REST")] }

/-- Extraction of the run identifier from the JSON response: the value of
the Id field.  A missing field raises in Python, hence Option. -/
def runIdFromResponse (response : List (String × String)) : Option String :=
  (response.find? (fun p => p.1 == "Id")).map (fun p => p.2)

/-! ## Run operation traces of the embedded scripts

Every script the notebooks write performs a sequence of operations on the
run object.  The trace of each script is listed below in program order;
loops over data become maps over the corresponding lists.  Operations that
do not touch the run object (fitting, joblib.dump, Model.register) do not
appear in the trace. -/

/-- An operation on the experiment run object. -/
inductive RunOp where
  | log (name : String)
  | logImage (name : String)
  | logRow (name : String)
  | uploadFile (name : String)
  | complete
deriving DecidableEq, Repr

/-- Trace of diabetes_experiment.py (and of the identical inline cell):
one observation-count log, one image per feature column, one row per age
group, one file upload, then complete. -/
def diabetes_experiment_ops (cols : List String) (num_ages : ℕ) : List RunOp :=
  [.log "observations"]
    ++ cols.map (fun c => .logImage c)
    ++ (List.range num_ages).map (fun _ => .logRow "Mean Diabetes Pedigree by Age")
    ++ [.uploadFile "outputs/sample.csv", .complete]

/-- Trace of the diabetes_training.py variants (notebook 04 Exercise 4 and
notebook 05): three metric logs, the ROC image, then complete. -/
def diabetes_training_ops : List RunOp :=
  [.log "Regularization Rate", .log "Accuracy", .log "AUC",
   .logImage "ROC", .complete]

/-- Trace of train_diabetes.py, the pipeline training step. -/
def train_diabetes_ops : List RunOp :=
  [.log "Regularization Rate", .complete]

/-- Trace of register_diabetes.py, the pipeline registration step
(Model.register is a workspace call, not a run operation). -/
def register_diabetes_ops : List RunOp :=
  [.complete]

/-- Trace of batch_diabetes.py, the batch scoring step. -/
def batch_diabetes_ops : List RunOp :=
  [.log "Input Folder", .log "File Count", .complete]

/-- The trace contains exactly one complete, and it is the final operation
(hence no logging or upload ever follows it). -/
def completesExactlyOnceLast (ops : List RunOp) : Prop :=
  ops.count RunOp.complete = 1 ∧ ops.getLast? = some RunOp.complete

/-! ## The two-step training pipeline (notebook 04, Exercise 7)

  model_folder = PipelineData("model_folder", datastore=...)
  train_step = PythonScriptStep(name="Train Model", script_name="train_diabetes.py",
      arguments=["--dataset_name", "Diabetes Dataset", "--regularization", 0.1,
                 "--output_folder", model_folder],
      outputs=[model_folder], ..., allow_reuse=False)
  register_step = PythonScriptStep(name="Register Model",
      script_name="register_diabetes.py",
      arguments=["--model_folder", model_folder],
      inputs=[model_folder], ..., allow_reuse=False)
  pipeline = Pipeline(workspace=ws, steps=[train_step, register_step])
-/

/-- A script argument: a literal, or a PipelineData reference by identity. -/
inductive StepArg where
  | lit (s : String)
  | data (id : String)
deriving DecidableEq, Repr

/-- A pipeline step: name, script, argument list, and the PipelineData
objects declared as inputs and outputs. -/
structure PythonScriptStep where
  name : String
  script_name : String
  arguments : List StepArg
  inputs : List String
  outputs : List String
  allow_reuse : Bool
deriving DecidableEq, Repr, Inhabited

/-- Identity of the single PipelineData object of the pipeline. -/
def model_folder : String := "model_folder"

/-- The Train Model step. -/
def train_step : PythonScriptStep :=
  { name := "Train Model",
    script_name := "train_diabetes.py",
    arguments := [.lit "--dataset_name", .lit "Diabetes Dataset",
                  .lit "--regularization", .lit "0.1",
                  .lit "--output_folder", .data model_folder],
    inputs := [],
    outputs := [model_folder],
    allow_reuse := false }

/-- The Register Model step. -/
def register_step : PythonScriptStep :=
  { name := "Register Model",
    script_name := "register_diabetes.py",
    arguments := [.lit "--model_folder", .data model_folder],
    inputs := [model_folder],
    outputs := [],
    allow_reuse := false }

/-- The step list handed to the Pipeline constructor. -/
def pipeline_steps : List PythonScriptStep := [train_step, register_step]

/-- Whether some step of the pipeline produces the PipelineData d. -/
def isProduced (steps : List PythonScriptStep) (d : String) : Bool :=
  steps.any (fun s => s.outputs.contains d)

/-- Modelled from the spec: the pipeline orchestration (absent from this
repository, owned by the external DAG executor) runs steps so that a step
starts only after every step producing one of its PipelineData inputs has
completed.  An execution order is admissible when each input of each step
that is produced at all is produced by an earlier step. -/
def admissibleOrder (steps : List PythonScriptStep) : Bool :=
  (List.range steps.length).all fun i =>
    ((steps.getD i default).inputs).all fun d =>
      !(isProduced steps d)
        || (List.range i).any fun j => (steps.getD j default).outputs.contains d

/-! ## Regularization handling of the training scripts

Five of the six training scripts read the rate from the command line:

  parser.add_argument("--regularization", type=float, dest="reg_rate",
                      default=0.01, help="regularization rate")
  reg = args.reg_rate
  model = LogisticRegression(C=1/reg, solver="liblinear").fit(...)

The Exercise 3 Task 4 variant of diabetes_training.py instead hard-codes
the rate in the script body, with no argparse at all:

  reg = 0.01
  ...
  model = LogisticRegression(C=1/reg, solver="liblinear").fit(...)

Python float division by zero raises ZeroDivisionError, so the computation
of C is fallible and modelled with Option.  The regularization values the
notebooks use are exact decimals, represented as rationals. -/

/-- Where a training script gets its regularization rate: from the
command-line flag with an argparse default, or hard-coded in the script
body (in which case the command line is ignored). -/
inductive RegSource where
  | cliFlag (defaultRate : ℚ)
  | hardCoded (rate : ℚ)
deriving DecidableEq, Repr

/-- The rate a script uses, given its source and the value passed for the
flag (none when the flag is absent). -/
def effectiveReg : RegSource → Option ℚ → ℚ
  | .cliFlag d, arg => arg.getD d
  | .hardCoded r, _ => r

/-- The inverse-regularization parameter C = 1/reg; division by zero raises
in Python, hence none. -/
def computeC (reg : ℚ) : Option ℚ :=
  if reg = 0 then none else some (1/reg)

/-- The C computation a training script performs, given the source of its
rate and the flag input. -/
def trainScriptC (src : RegSource) (arg : Option ℚ) : Option ℚ :=
  computeC (effectiveReg src arg)

/-- One model-training script written by the notebooks, with the origin of
its regularization rate.  Every entry computes C = 1/reg from its rate with
no guard against zero. -/
structure TrainingScript where
  notebook : String
  location : String
  script_name : String
  regSource : RegSource
deriving DecidableEq, Repr

/-- The Exercise 3 Task 4 training script: the only variant whose rate is
the hard-coded constant 0.01, taking no regularization argument. -/
def hardCodedTrainingScript : TrainingScript :=
  ⟨"04 - Compute Contexts", "Exercise 3, Task 4", "diabetes_training.py",
    .hardCoded (1/100)⟩

/-- All six training scripts the notebooks write, in file order: the
Exercise 4 script, the Exercise 7 pipeline training step, the three
Exercise 3 variants, and the hyperdrive script of notebook 05.  All
argparse defaults are 0.01. -/
def trainingScripts : List TrainingScript :=
  [ ⟨"04 - Compute Contexts", "Exercise 4, Task 3", "diabetes_training.py",
      .cliFlag (1/100)⟩,
    ⟨"04 - Compute Contexts", "Exercise 7, Task 2", "train_diabetes.py",
      .cliFlag (1/100)⟩,
    hardCodedTrainingScript,
    ⟨"04 - Compute Contexts", "Exercise 3, Task 5", "diabetes_training.py",
      .cliFlag (1/100)⟩,
    ⟨"04 - Compute Contexts", "Exercise 3, Task 6", "diabetes_training.py",
      .cliFlag (1/100)⟩,
    ⟨"05 - Optimizing Model Training", "Task 2", "diabetes_training.py",
      .cliFlag (1/100)⟩ ]

/-! ## Batch data generation (notebook 01, Exercise 8, Task 2)

  sample = diabetes[["Pregnancies", "PlasmaGlucose", "DiastolicBloodPressure",
                     "TricepsThickness", "SerumInsulin", "BMI",
                     "DiabetesPedigree", "Age"]].sample(n=100).values
  for i in range(100):
      fname = str(i+1) + ".csv"
      sample[i].tofile(os.path.join(batch_folder, fname), sep=",")

The pandas sample call returns exactly 100 drawn records; the draw itself is
random, so the drawn records are a parameter. -/

/-- One record of diabetes.csv: the eight feature columns and the label. -/
structure DiabetesRecord where
  pregnancies : ℚ
  plasmaGlucose : ℚ
  diastolicBloodPressure : ℚ
  tricepsThickness : ℚ
  serumInsulin : ℚ
  bmi : ℚ
  diabetesPedigree : ℚ
  age : ℚ
  diabetic : ℚ
deriving DecidableEq, Repr, Inhabited

/-- Projection onto the eight feature columns selected by the cell, in
column order; the Diabetic label is not selected. -/
def featureValues (r : DiabetesRecord) : List ℚ :=
  [r.pregnancies, r.plasmaGlucose, r.diastolicBloodPressure,
   r.tricepsThickness, r.serumInsulin, r.bmi, r.diabetesPedigree, r.age]

/-- The files written by the generation loop: for i in range(100), the file
named str(i+1) + ".csv" holding the feature values of drawn record i. -/
def generateBatchFiles (sampled : List DiabetesRecord) : List (String × List ℚ) :=
  (List.range 100).map fun i =>
    (toString (i + 1) ++ ".csv", featureValues (sampled.getD i default))

/-! ## Theorems -/

/-- Helper for C7: a mapped block of operations none of which is complete
contributes no complete operation to the trace. -/
theorem count_complete_map {α : Type} (f : α → RunOp) (l : List α)
    (hf : ∀ a, f a ≠ RunOp.complete) :
    (l.map f).count RunOp.complete = 0 := by
  rw [List.count_eq_zero]
  intro hmem
  rcases List.mem_map.mp hmem with ⟨a, _, ha⟩
  exact hf a ha

/-- C1 counterexample: it is not the case that every exception handler of
the repository catches ComputeTargetException for the cluster
reuse-or-create decision; the workspace bootstrap cell of notebook 01
catches the generic Exception type to decide between reusing and creating
the workspace. -/
theorem C1_counterexample :
    ¬ ∀ h ∈ exceptionHandlers,
        h.caught = ExcClause.computeTargetException ∧
        h.purpose = HandlerPurpose.clusterReuseCreate := by
  decide

/-- C1 (amended): every exception handler of the repository is either one of
the four cpu-cluster cells catching ComputeTargetException to decide between
reusing and recreating the cluster, or the single workspace bootstrap cell
of notebook 01 catching the generic Exception to decide between reusing and
creating the workspace; at the cluster cells any exception other than
ComputeTargetException propagates uncaught with no provisioning call. -/
theorem C1_exception_handling :
    ((exceptionHandlers.all fun h =>
        (h.caught == ExcClause.computeTargetException
          && h.purpose == HandlerPurpose.clusterReuseCreate)
        || (h.caught == ExcClause.anyException
          && h.purpose == HandlerPurpose.workspaceReuseCreate
          && h.notebook == "01 - Setting up Your Environment")) = true) ∧
    ((exceptionHandlers.filter fun h =>
        h.caught == ExcClause.anyException).length = 1) ∧
    (∀ (α : Type) (m : String) (create : ProvisioningConfig → α),
      cpuClusterCell (.exc (.otherExc m)) create = (.exc (.otherExc m), none)) := by
  refine ⟨by decide, by decide, ?_⟩
  intro α m create
  simp [cpuClusterCell, catchesComputeTarget]

/-- C2: for any fitted model, rendering function, file parser and matched
file list, the results file written by batch_diabetes.py has exactly one
line per matched file, and line i is the base filename of matched file i,
the separator, and the rendered prediction for that file, in match order. -/
theorem C2_batch_results {ρ π : Type} (predict : ρ → π) (render : π → String)
    (readFile : String → ρ) (file_names : List String) :
    (batchScoreResults predict render readFile file_names).length
      = file_names.length ∧
    ∀ i, i < file_names.length →
      (batchScoreResults predict render readFile file_names).getD i ""
        = baseName (file_names.getD i "") ++ ": "
            ++ render (predict (readFile (file_names.getD i ""))) := by
  constructor
  · simp [batchScoreResults]
  · intro i hi
    simp only [batchScoreResults, List.length_map, List.getD_eq_getElem?_getD,
      List.getElem?_map, List.getElem?_range, hi, if_pos, Option.map_some,
      Option.getD_some]
    simp [List.getElem?_map, hi]

/-- C2 witness at a concrete input. -/
theorem C2_batch_results_witness :
    0 < ([("batch_data/1.csv" : String)]).length ∧
    (batchScoreResults (fun n => n + 1) toString String.length
        ["batch_data/1.csv"]).getD 0 ""
      = baseName (["batch_data/1.csv"].getD 0 "") ++ ": "
          ++ toString (String.length (["batch_data/1.csv"].getD 0 "") + 1) :=
  ⟨by decide,
    (C2_batch_results (fun n => n + 1) toString String.length
      ["batch_data/1.csv"]).2 0 (by decide)⟩

/-- C3: the cpu-cluster cell shared by notebooks 01, 04 and 05 reuses the
looked-up cluster without issuing a provisioning call when the lookup
succeeds, provisions a new AmlCompute cluster with vm_size STANDARD_D2_V2,
vm_priority lowpriority and max_nodes 4 when the lookup raises
ComputeTargetException, and propagates any other exception. -/
theorem C3_cluster_cell (α : Type) (c : α) (m : String)
    (create : ProvisioningConfig → α) :
    cpuClusterCell (.ok c) create = (.ok c, none) ∧
    cpuClusterCell (.exc .computeTargetException) create
      = (.ok (create ⟨"STANDARD_D2_V2", "lowpriority", 4⟩),
          some ⟨"STANDARD_D2_V2", "lowpriority", 4⟩) ∧
    cpuClusterCell (.exc (.otherExc m)) create = (.exc (.otherExc m), none) ∧
    cpu_cluster_name = "cpu-cluster" := by
  refine ⟨rfl, rfl, ?_, rfl⟩
  simp [cpuClusterCell, catchesComputeTarget]

/-- C4: the hyperparameter sweep configuration is a grid over exactly the
six values 0.001, 0.005, 0.01, 0.05, 0.1, 1.0 of the single parameter
named regularization, a bandit policy with evaluation_interval 2 and
slack_factor 0.1, primary metric AUC to maximize, and max_total_runs 6
equal to the number of grid points. -/
theorem C4_hyperdrive_config :
    hyperdriveCfg.hyperparameter_sampling.parameters
      = [("--regularization", [1/1000, 5/1000, 1/100, 5/100, 1/10, 1])] ∧
    regularizationChoices.length = 6 ∧
    hyperdriveCfg.policy = ⟨2, 1/10⟩ ∧
    hyperdriveCfg.primary_metric_name = "AUC" ∧
    hyperdriveCfg.primary_metric_goal = .MAXIMIZE ∧
    hyperdriveCfg.max_total_runs = 6 ∧
    hyperdriveCfg.max_total_runs
      = gridPointCount hyperdriveCfg.hyperparameter_sampling :=
  ⟨rfl, rfl, rfl, rfl, rfl, rfl, rfl⟩

/-- C5: the batch pipeline is triggered by a POST whose URL is the published
pipeline endpoint, whose headers are the authorization header of the
interactive authentication session, and whose JSON body names the
experiment; the run identifier is the value of the Id field of the JSON
response. -/
theorem C5_rest_trigger (endpoint : String)
    (interactive_auth : InteractiveLoginAuthentication)
    (rid : String) (rest : List (String × String)) :
    (triggerPublishedPipeline endpoint interactive_auth).url = endpoint ∧
    (triggerPublishedPipeline endpoint interactive_auth).headers
      = interactive_auth.authentication_header ∧
    (triggerPublishedPipeline endpoint interactive_auth).jsonBody
      = [("ExperimentName", "Batch_Pipeline_via_REST")] ∧
    runIdFromResponse (("Id", rid) :: rest) = some rid := by
  refine ⟨rfl, rfl, rfl, ?_⟩
  simp [runIdFromResponse]

/-- C6: in the workspace bootstrap cell, write_config is executed exactly
when a workspace handle was obtained; a successful lookup reuses the
workspace with no creation call; a failed lookup issues the creation call
with create_resource_group true; and when both lookup and creation fail,
no configuration is written and the creation exception propagates. -/
theorem C6_workspace_bootstrap (ω : Type) (w : ω) (e e2 : String)
    (create : WorkspaceCreateCall → PyResult String ω) :
    (∀ lookup : PyResult String ω,
      (workspaceBootstrap lookup create).configWritten
        = (workspaceBootstrap lookup create).ws.isSome) ∧
    workspaceBootstrap (.ok w) create
      = { ws := some w, createRequested := none,
          configWritten := true, raised := none } ∧
    (workspaceBootstrap (.exc e) create).createRequested
      = some bootstrapCreateCall ∧
    bootstrapCreateCall.create_resource_group = true ∧
    workspaceBootstrap ((.exc e : PyResult String ω))
        (fun _ => (.exc e2 : PyResult String ω))
      = { ws := none, createRequested := some bootstrapCreateCall,
          configWritten := false, raised := some e2 } := by
  refine ⟨?_, rfl, ?_, rfl, rfl⟩
  · intro lookup
    cases lookup with
    | ok w => rfl
    | exc e =>
        cases h : create bootstrapCreateCall <;> simp [workspaceBootstrap, h]
  · cases h : create bootstrapCreateCall <;> simp [workspaceBootstrap, h]

/-- C7: in every run-operation trace of the scripts written by the
notebooks, complete occurs exactly once and is the final operation, so no
log, image log, row log or file upload ever follows it. -/
theorem C7_complete_last (cols : List String) (num_ages : ℕ) :
    completesExactlyOnceLast (diabetes_experiment_ops cols num_ages) ∧
    completesExactlyOnceLast diabetes_training_ops ∧
    completesExactlyOnceLast train_diabetes_ops ∧
    completesExactlyOnceLast register_diabetes_ops ∧
    completesExactlyOnceLast batch_diabetes_ops := by
  refine ⟨⟨?_, ?_⟩, ⟨by decide, by decide⟩, ⟨by decide, by decide⟩,
    ⟨by decide, by decide⟩, ⟨by decide, by decide⟩⟩
  · simp only [diabetes_experiment_ops, List.count_append]
    rw [count_complete_map _ cols (by intro a; simp),
      count_complete_map _ (List.range num_ages) (by intro a; simp)]
    rfl
  · simp only [diabetes_experiment_ops]
    rw [List.getLast?_append_of_ne_nil] <;> simp

/-- C8: in the two-step pipeline, the PipelineData model_folder is both the
declared output of Train Model (passed after the output_folder flag) and the
declared input of Register Model (passed after the model_folder flag), and
under the dependency-respecting scheduling of the external service the only
admissible execution order runs Train Model before Register Model. -/
theorem C8_pipeline_ordering :
    pipeline_steps = [train_step, register_step] ∧
    train_step.outputs = [model_folder] ∧
    register_step.inputs = [model_folder] ∧
    train_step.arguments.getD 4 (.lit "") = .lit "--output_folder" ∧
    train_step.arguments.getD 5 (.lit "") = .data model_folder ∧
    register_step.arguments = [.lit "--model_folder", .data model_folder] ∧
    admissibleOrder [train_step, register_step] = true ∧
    admissibleOrder [register_step, train_step] = false :=
  ⟨rfl, rfl, rfl, rfl, rfl, rfl, by decide, by decide⟩

/-- C9 counterexample: it is not the case that every training script takes
its rate from the regularization flag and fails on the flag input 0.0; the
Exercise 3 Task 4 variant hard-codes reg = 0.01, ignores the flag, and its
division succeeds on that input. -/
theorem C9_counterexample :
    ¬ ∀ s ∈ trainingScripts,
        effectiveReg s.regSource (some 0) = 0 ∧
        trainScriptC s.regSource (some 0) = none := by
  intro hall
  have h := (hall hardCodedTrainingScript (by simp [trainingScripts])).1
  rw [hardCodedTrainingScript] at h
  norm_num [effectiveReg] at h

/-- C9 (amended): each of the six training scripts computes C through
computeC, one over its rate with no zero guard.  Five of the six read the
rate from the regularization flag with default 0.01, so for them the
computation is well-defined exactly for a nonzero rate and the flag input
0.0 makes the division fail; the Exercise 3 Task 4 variant hard-codes the
rate 0.01, takes no such argument, and always computes C = 100. -/
theorem C9_regularization (reg : ℚ) :
    trainingScripts.map (fun s => s.regSource)
      = [.cliFlag (1/100), .cliFlag (1/100), .hardCoded (1/100),
          .cliFlag (1/100), .cliFlag (1/100), .cliFlag (1/100)] ∧
    effectiveReg (.cliFlag (1/100)) none = 1/100 ∧
    effectiveReg (.cliFlag (1/100)) (some reg) = reg ∧
    (reg ≠ 0 → computeC reg = some (1/reg)) ∧
    computeC 0 = none ∧
    trainScriptC (.cliFlag (1/100)) (some 0) = none ∧
    (∀ arg : Option ℚ,
      trainScriptC hardCodedTrainingScript.regSource arg = some 100) := by
  refine ⟨rfl, rfl, rfl, ?_, ?_, ?_, ?_⟩
  · intro h
    simp [computeC, h]
  · simp [computeC]
  · simp [trainScriptC, effectiveReg, computeC]
  · intro arg
    norm_num [trainScriptC, hardCodedTrainingScript, effectiveReg, computeC]

/-- C9 witness at the concrete rate 0.01. -/
theorem C9_regularization_witness :
    (1/100 : ℚ) ≠ 0 ∧ computeC (1/100) = some (1/(1/100)) :=
  ⟨by norm_num, (C9_regularization (1/100)).2.2.2.1 (by norm_num)⟩

/-- C10: given the 100 records drawn by the sampling call, the generation
loop writes exactly 100 files named 1.csv through 100.csv in order, file i
holding exactly the eight feature values of drawn record i; the feature
projection has eight entries and never depends on the Diabetic label. -/
theorem C10_batch_generation (sampled : List DiabetesRecord)
    (h : sampled.length = 100) :
    (generateBatchFiles sampled).length = 100 ∧
    (generateBatchFiles sampled).map Prod.fst
      = (List.range 100).map (fun i => toString (i + 1) ++ ".csv") ∧
    ((generateBatchFiles sampled).map Prod.fst).getD 0 "" = "1.csv" ∧
    ((generateBatchFiles sampled).map Prod.fst).getD 99 "" = "100.csv" ∧
    (∀ i, i < 100 →
      ((generateBatchFiles sampled).getD i ("", [])).2
        = featureValues (sampled.getD i default)) ∧
    (∀ i, i < 100 → sampled.getD i default ∈ sampled) ∧
    (∀ r : DiabetesRecord, (featureValues r).length = 8) ∧
    (∀ (r : DiabetesRecord) (d : ℚ),
      featureValues { r with diabetic := d } = featureValues r) := by
  refine ⟨by simp [generateBatchFiles], rfl, rfl, rfl, ?_, ?_, fun r => rfl,
    fun r d => rfl⟩
  · intro i hi
    simp [generateBatchFiles, List.getD_eq_getElem?_getD, List.getElem?_map,
      List.getElem?_range, hi]
  · intro i hi
    have hi2 : i < sampled.length := by omega
    rw [List.getD_eq_getElem?_getD, List.getElem?_eq_getElem hi2]
    simp [List.getElem_mem]

/-- C10 witness at a concrete drawn sample. -/
theorem C10_batch_generation_witness :
    (List.replicate 100 (default : DiabetesRecord)).length = 100 ∧
    (generateBatchFiles (List.replicate 100 default)).length = 100 :=
  ⟨by simp, (C10_batch_generation (List.replicate 100 default) (by simp)).1⟩

end AzureMLPrimers
